import Mathlib

/-!
Shallow embedding of the `galaxy-js` simulation core (vector algebra,
rotation algebra, entity model, force integrator, initial-condition
generator), translated from the TypeScript sources
`src/math/vector.ts`, `src/math/matrix.ts`, `src/astro/star.ts`,
`src/astro/galaxy.ts`, `src/physics/util.ts`, `src/physics/simple.ts`.

Modelling conventions:
* IEEE doubles are modelled as real numbers (`ℝ`); `Math.sqrt`, `Math.sin`,
  `Math.cos`, `Math.exp`, `Math.atan2`, `Math.asin` become the exact real
  functions (`Real.sqrt`, …; `Math.atan2 y x` is the argument of the complex
  number `x + y·i`).
* `Math.random()` draws are modelled by an explicit stream `rnd : ℕ → ℝ`
  consumed in source order.
* JS objects become immutable records; in-place mutation becomes returning
  the updated record.  Arrays become `List`s; the reference-identity check
  `galaxy === otherGalaxy` of the integrator's second phase becomes an
  index comparison over the galaxy list.
* The open `data : Record<string, unknown>` maps carry an arbitrary type
  parameter `α` (the core never reads or writes them).
-/

namespace GalaxyJS

/-- Vector from `src/math/vector.ts` (`class Vec3`): three real components. -/
structure Vec3 where
  x : ℝ
  y : ℝ
  z : ℝ

namespace Vec3

/-- `Vec3.zero()`. -/
def zero : Vec3 := ⟨0, 0, 0⟩

/-- `get magnitude()`: `Math.sqrt(x ** 2 + y ** 2 + z ** 2)`. -/
noncomputable def magnitude (v : Vec3) : ℝ :=
  Real.sqrt (v.x ^ 2 + v.y ^ 2 + v.z ^ 2)

/-- `add(other: Vec3)` (vector branch of the overload). -/
def add (a b : Vec3) : Vec3 := ⟨a.x + b.x, a.y + b.y, a.z + b.z⟩

/-- `sub(other: Vec3)` (vector branch of the overload). -/
def sub (a b : Vec3) : Vec3 := ⟨a.x - b.x, a.y - b.y, a.z - b.z⟩

/-- `sub(other: number)` (scalar branch of the overload). -/
def subScalar (a : Vec3) (s : ℝ) : Vec3 := ⟨a.x - s, a.y - s, a.z - s⟩

/-- `mul(other: number)` (scalar branch of the overload). -/
def mul (a : Vec3) (s : ℝ) : Vec3 := ⟨a.x * s, a.y * s, a.z * s⟩

/-- `Vec3.random(factor)`: three `Math.random()` draws scaled by `factor`;
the draws are passed explicitly. -/
def random (r1 r2 r3 factor : ℝ) : Vec3 := (Vec3.mk r1 r2 r3).mul factor

/-- `Vec3.randomCentered(factor)`: `Vec3.random().sub(0.5).mul(factor)`. -/
def randomCentered (r1 r2 r3 factor : ℝ) : Vec3 :=
  ((random r1 r2 r3 1).subScalar 0.5).mul factor

instance : Zero Vec3 := ⟨zero⟩
instance : Add Vec3 := ⟨add⟩

theorem add_def (a b : Vec3) : a + b = a.add b := rfl

theorem zero_def : (0 : Vec3) = zero := rfl

@[ext] theorem vecExt {a b : Vec3} (hx : a.x = b.x) (hy : a.y = b.y)
    (hz : a.z = b.z) : a = b := by
  cases a; cases b; simp_all

instance : AddCommMonoid Vec3 where
  add_assoc a b c := by ext <;> simp [add_def, add] <;> ring
  zero_add a := by ext <;> simp [add_def, zero_def, add, zero]
  add_zero a := by ext <;> simp [add_def, zero_def, add, zero]
  add_comm a b := by ext <;> simp [add_def, add] <;> ring
  nsmul := nsmulRec

end Vec3

/-- Rotation matrix from `src/math/matrix.ts` (`class Matrix3x3`).  The
constructor's 3×3 shape validation is encoded in the index types: the
backing `data[i][j]` becomes a total function `Fin 3 → Fin 3 → ℝ`
(row `i`, column `j`, row-major as documented). -/
structure Matrix3x3 where
  data : Fin 3 → Fin 3 → ℝ

namespace Matrix3x3

@[ext] theorem matExt {a b : Matrix3x3} (h : ∀ i j, a.data i j = b.data i j) :
    a = b := by
  cases a; cases b; simp only [mk.injEq]; funext i j; exact h i j

/-- `Matrix3x3.identity()`. -/
def identity : Matrix3x3 :=
  ⟨![![1, 0, 0], ![0, 1, 0], ![0, 0, 1]]⟩

/-- `Matrix3x3.fromEuler(x, y, z)`: the closed-form entries of the source. -/
noncomputable def fromEuler (x y z : ℝ) : Matrix3x3 :=
  let cx := Real.cos x
  let sx := Real.sin x
  let cy := Real.cos y
  let sy := Real.sin y
  let cz := Real.cos z
  let sz := Real.sin z
  ⟨![![cz * cy, cz * sy * sx - sz * cx, cz * sy * cx + sz * sx],
     ![sz * cy, sz * sy * sx + cz * cx, sz * sy * cx - cz * sx],
     ![-sy, cy * sx, cy * cx]]⟩

/-- `Matrix3x3.fromAxisAngle(axis, angle)`: Rodrigues' formula, entry for
entry as in the source (`t = 1 - c`). -/
noncomputable def fromAxisAngle (axis : Vec3) (angle : ℝ) : Matrix3x3 :=
  let x := axis.x
  let y := axis.y
  let z := axis.z
  let c := Real.cos angle
  let s := Real.sin angle
  let t := 1 - c
  ⟨![![t * x * x + c, t * x * y - z * s, t * x * z + y * s],
     ![t * y * x + z * s, t * y * y + c, t * y * z - x * s],
     ![t * z * x - y * s, t * z * y + x * s, t * z * z + c]]⟩

/-- `transform(vec)`: each result component is the dot product of a matrix
COLUMN with the vector, exactly as the source computes it. -/
def transform (m : Matrix3x3) (vec : Vec3) : Vec3 :=
  ⟨m.data 0 0 * vec.x + m.data 1 0 * vec.y + m.data 2 0 * vec.z,
   m.data 0 1 * vec.x + m.data 1 1 * vec.y + m.data 2 1 * vec.z,
   m.data 0 2 * vec.x + m.data 1 2 * vec.y + m.data 2 2 * vec.z⟩

/-- `mul(other)`: the triple loop of the source, unrolled over `k`
(`result[i][j]` starts at `0` and accumulates `this[i][k] * other[k][j]`). -/
def mul (a other : Matrix3x3) : Matrix3x3 :=
  ⟨fun i j =>
    ((0 + a.data i 0 * other.data 0 j) + a.data i 1 * other.data 1 j) +
      a.data i 2 * other.data 2 j⟩

/-- `Math.atan2(y, x)` modelled exactly: the principal argument of the
complex number `x + y·i` (range `(-π, π]`). -/
noncomputable def atan2 (y x : ℝ) : ℝ := Complex.arg (x + y * Complex.I)

/-- `toEuler()`: `(atan2(m[2][1], m[2][2]), asin(-m[2][0]), atan2(m[1][0], m[0][0]))`. -/
noncomputable def toEuler (m : Matrix3x3) : Vec3 :=
  ⟨atan2 (m.data 2 1) (m.data 2 2),
   Real.arcsin (-(m.data 2 0)),
   atan2 (m.data 1 0) (m.data 0 0)⟩

end Matrix3x3

/-- Component accessor for stating matrix-vector identities: vector
components indexed 0, 1, 2. -/
def Vec3.comp (v : Vec3) : Fin 3 → ℝ := ![v.x, v.y, v.z]

/-- C4: `transform` computes the row-vector product `v·M` — component `j`
of `M.transform v` is `Σ_i M[i][j]·v_i` (columns as basis) — while `mul`
is the conventional matrix product `result[i][j] = Σ_k M[i][k]·other[k][j]`. -/
theorem transform_is_row_vector_product_and_mul_is_standard
    (m other : Matrix3x3) (v : Vec3) (i j : Fin 3) :
    (m.transform v).comp j = ∑ k : Fin 3, m.data k j * v.comp k ∧
      (m.mul other).data i j = ∑ k : Fin 3, m.data i k * other.data k j := by
  constructor
  · fin_cases j <;>
      simp [Matrix3x3.transform, Vec3.comp, Fin.sum_univ_three]
  · simp [Matrix3x3.mul, Fin.sum_univ_three]

/-- C5: `fromEuler(x, y, z)` equals the ZYX composition
`Rz(z)·Ry(y)·Rx(x)` of single-axis rotations built with `fromAxisAngle`
and composed with the conventional product `mul`. -/
theorem fromEuler_eq_axis_angle_composition (x y z : ℝ) :
    Matrix3x3.fromEuler x y z =
      ((Matrix3x3.fromAxisAngle ⟨0, 0, 1⟩ z).mul
          (Matrix3x3.fromAxisAngle ⟨0, 1, 0⟩ y)).mul
        (Matrix3x3.fromAxisAngle ⟨1, 0, 0⟩ x) := by
  ext i j
  fin_cases i <;> fin_cases j <;>
    simp [Matrix3x3.fromEuler, Matrix3x3.fromAxisAngle, Matrix3x3.mul] <;>
    ring

theorem atan2_mul_cos_sin {r θ : ℝ} (hr : 0 < r) (hθ : θ ∈ Set.Ioc (-Real.pi) Real.pi) :
    Matrix3x3.atan2 (r * Real.sin θ) (r * Real.cos θ) = θ := by
  unfold Matrix3x3.atan2
  have h : ((r * Real.cos θ : ℝ) : ℂ) + ((r * Real.sin θ : ℝ) : ℂ) * Complex.I =
      (r : ℂ) * (Complex.cos θ + Complex.sin θ * Complex.I) := by
    push_cast [Complex.ofReal_cos, Complex.ofReal_sin]
    ring
  rw [h, Complex.arg_real_mul _ hr, Complex.arg_cos_add_sin_mul_I hθ]

/-- C6: away from gimbal lock (`x, z ∈ (-π, π)`, `y ∈ (-π/2, π/2)`),
`toEuler` recovers the Euler angles: `fromEuler(x,y,z).toEuler() = (x,y,z)`. -/
theorem toEuler_fromEuler (x y z : ℝ)
    (hx1 : -Real.pi < x) (hx2 : x < Real.pi)
    (hy1 : -(Real.pi / 2) < y) (hy2 : y < Real.pi / 2)
    (hz1 : -Real.pi < z) (hz2 : z < Real.pi) :
    (Matrix3x3.fromEuler x y z).toEuler = ⟨x, y, z⟩ := by
  have hcy : 0 < Real.cos y := Real.cos_pos_of_mem_Ioo ⟨hy1, hy2⟩
  have hxe : Matrix3x3.atan2 (Real.cos y * Real.sin x) (Real.cos y * Real.cos x) = x :=
    atan2_mul_cos_sin hcy ⟨hx1, hx2.le⟩
  have hze : Matrix3x3.atan2 (Real.sin z * Real.cos y) (Real.cos z * Real.cos y) = z := by
    rw [mul_comm (Real.sin z) (Real.cos y), mul_comm (Real.cos z) (Real.cos y)]
    exact atan2_mul_cos_sin hcy ⟨hz1, hz2.le⟩
  have hye : Real.arcsin (-(-Real.sin y)) = y := by
    rw [neg_neg]
    exact Real.arcsin_sin hy1.le hy2.le
  simp only [Matrix3x3.toEuler, Matrix3x3.fromEuler, Matrix.cons_val_zero,
    Matrix.cons_val_one, Matrix.head_cons, Matrix.cons_val_two, Matrix.tail_cons]
  rw [hxe, hye, hze]

/-- Witness for C6 at `x = y = z = 0`. -/
theorem toEuler_fromEuler_witness :
    (-Real.pi < (0 : ℝ) ∧ (0 : ℝ) < Real.pi ∧
        -(Real.pi / 2) < (0 : ℝ) ∧ (0 : ℝ) < Real.pi / 2) ∧
      (Matrix3x3.fromEuler 0 0 0).toEuler = ⟨0, 0, 0⟩ :=
  ⟨⟨neg_lt_zero.mpr Real.pi_pos, Real.pi_pos,
      neg_lt_zero.mpr (by positivity), by positivity⟩,
    toEuler_fromEuler 0 0 0 (neg_lt_zero.mpr Real.pi_pos) Real.pi_pos
      (neg_lt_zero.mpr (by positivity)) (by positivity)
      (neg_lt_zero.mpr Real.pi_pos) Real.pi_pos⟩

/-- `src/astro/star.ts` (`class Star`): position, velocity, mass
(default 0), and an open data map of type `α`. -/
structure Star (α : Type) where
  pos : Vec3
  vel : Vec3
  mass : ℝ
  data : α

/-- `src/astro/galaxy.ts` (`class Galaxy`): velocity, position, rotation
(Euler angles), mass, owned stars, and an open data map of type `α`. -/
structure Galaxy (α : Type) where
  vel : Vec3
  pos : Vec3
  rotation : Vec3
  mass : ℝ
  stars : List (Star α)
  data : α

/-- `TIME_STEP` from `src/physics/simple.ts`: Δt = 0.005. -/
def TIME_STEP : ℝ := 0.005

/-- `G` from `src/physics/simple.ts`: gravitational constant 0.001. -/
def G : ℝ := 0.001

/-- The body of the force-summation loops of `updateGalaxies`: the
acceleration contributed by `otherGalaxy` at position `pos`
(`dPos = otherGalaxy.pos − pos`, `distSq = dPos.magnitude²`, `continue`
on `distSq === 0` modelled as a zero contribution, else
`(G·mass/(dist·distSq))·dPos` with `dist = Math.sqrt(distSq)`). -/
noncomputable def accelContribution {α : Type} (pos : Vec3) (otherGalaxy : Galaxy α) : Vec3 :=
  let dPos := otherGalaxy.pos.sub pos
  let distSq := dPos.magnitude ^ 2
  if distSq = 0 then Vec3.zero
  else
    let dist := Real.sqrt distSq
    let accelerationScalar := G * otherGalaxy.mass / (dist * distSq)
    dPos.mul accelerationScalar

variable {α β : Type}

/-- Phase 1 inner loop of `updateGalaxies`: total acceleration on a star,
accumulated over all galaxies in order. -/
noncomputable def starTotalAcceleration (galaxies : List (Galaxy α)) (star : Star α) : Vec3 :=
  galaxies.foldl
    (fun totalAcceleration otherGalaxy =>
      totalAcceleration.add (accelContribution star.pos otherGalaxy))
    Vec3.zero

/-- Phase 1 body of `updateGalaxies` for one star: velocity kick from the
summed acceleration, then position drift with the NEW velocity. -/
noncomputable def updateStar (galaxies : List (Galaxy α)) (star : Star α) : Star α :=
  let deltaVelocity := (starTotalAcceleration galaxies star).mul TIME_STEP
  let newVel := star.vel.add deltaVelocity
  { star with vel := newVel, pos := star.pos.add (newVel.mul TIME_STEP) }

/-- Phase 2 inner loop of `updateGalaxies`: accumulate acceleration on
`galaxy` over the galaxy list carrying the running index `j`; the source's
reference-identity self check (`galaxy === otherGalaxy`, `continue`)
becomes the index comparison `j = selfIdx`. -/
noncomputable def galaxyTotalAccelerationGo (galaxy : Galaxy α) (selfIdx : ℕ) :
    ℕ → List (Galaxy α) → Vec3 → Vec3
  | _, [], totalAcceleration => totalAcceleration
  | j, otherGalaxy :: rest, totalAcceleration =>
    galaxyTotalAccelerationGo galaxy selfIdx (j + 1) rest
      (if j = selfIdx then totalAcceleration
       else totalAcceleration.add (accelContribution galaxy.pos otherGalaxy))

/-- Phase 2 inner loop of `updateGalaxies`, started at index 0 with a zero
accumulator. -/
noncomputable def galaxyTotalAcceleration (galaxies : List (Galaxy α)) (selfIdx : ℕ)
    (galaxy : Galaxy α) : Vec3 :=
  galaxyTotalAccelerationGo galaxy selfIdx 0 galaxies Vec3.zero

/-- Phase 2 body of `updateGalaxies` for one galaxy: velocity update from
the accumulated acceleration. -/
noncomputable def galaxyVelKick (galaxies : List (Galaxy α)) (selfIdx : ℕ)
    (galaxy : Galaxy α) : Galaxy α :=
  let deltaVelocity := (galaxyTotalAcceleration galaxies selfIdx galaxy).mul TIME_STEP
  { galaxy with vel := galaxy.vel.add deltaVelocity }

/-- Phase 2 outer loop of `updateGalaxies` over the galaxy list (the
`galaxies` argument is the list state during phase 2, whose positions and
masses are still the start-of-call values). -/
noncomputable def updateGalaxyVelocities (galaxies : List (Galaxy α)) :
    ℕ → List (Galaxy α) → List (Galaxy α)
  | _, [] => []
  | i, galaxy :: rest =>
    galaxyVelKick galaxies i galaxy :: updateGalaxyVelocities galaxies (i + 1) rest

/-- `updateGalaxies` from `src/physics/simple.ts`: phase 1 updates every
star of every galaxy (star accelerations read galaxy positions/masses,
which phase 1 never changes, so the start-of-call list is passed); phase 2
updates every galaxy velocity; phase 3 updates every galaxy position from
its updated velocity.  In-place mutation is modelled by returning the
updated list. -/
noncomputable def updateGalaxies (galaxies : List (Galaxy α)) : List (Galaxy α) :=
  let gs1 := galaxies.map fun galaxy =>
    { galaxy with stars := galaxy.stars.map (updateStar galaxies) }
  let gs2 := updateGalaxyVelocities gs1 0 gs1
  gs2.map fun galaxy => { galaxy with pos := galaxy.pos.add (galaxy.vel.mul TIME_STEP) }

/-! ### Reference three-phase definition (transcribed from the claim) -/

/-- The claim's acceleration formula `a = G·M/|r|³ · r`, `r = g.pos − p`. -/
noncomputable def refAccel (p : Vec3) (g : Galaxy α) : Vec3 :=
  let r := g.pos.sub p
  r.mul (G * g.mass / r.magnitude ^ 3)

/-- Reference phase 1 for one star: sum `refAccel` over ALL galaxies
(the star's own parent included), kick the velocity, then drift the
position with the updated velocity. -/
noncomputable def refStarStep (galaxies : List (Galaxy α)) (s : Star α) : Star α :=
  let a := (galaxies.map (refAccel s.pos)).sum
  let newVel := s.vel.add (a.mul TIME_STEP)
  { s with vel := newVel, pos := s.pos.add (newVel.mul TIME_STEP) }

/-- Reference phase 2 sum: `Σ_{j ≠ selfIdx} refAccel p galaxies[j]` —
every OTHER galaxy, the galaxy itself excluded. -/
noncomputable def refOthersAccel (p : Vec3) (selfIdx : ℕ) : ℕ → List (Galaxy α) → Vec3
  | _, [] => 0
  | j, g :: rest =>
    (if j = selfIdx then 0 else refAccel p g) + refOthersAccel p selfIdx (j + 1) rest

/-- Reference phase 2: every galaxy's velocity is kicked by the sum over
the other galaxies, all positions taken from `startGalaxies` (start of
call). -/
noncomputable def refPhase2 (startGalaxies : List (Galaxy α)) :
    ℕ → List (Galaxy α) → List (Galaxy α)
  | _, [] => []
  | i, g :: rest =>
    { g with vel := g.vel.add ((refOthersAccel g.pos i 0 startGalaxies).mul TIME_STEP) } ::
      refPhase2 startGalaxies (i + 1) rest

/-- The claim's three-phase reference integrator: star phase at
start-of-call galaxy positions, then galaxy velocity phase at
start-of-call positions, then — only after all velocities — the galaxy
position phase. -/
noncomputable def updateGalaxiesRef (galaxies : List (Galaxy α)) : List (Galaxy α) :=
  let gs1 := galaxies.map fun g => { g with stars := g.stars.map (refStarStep galaxies) }
  let gs2 := refPhase2 galaxies 0 gs1
  gs2.map fun g => { g with pos := g.pos.add (g.vel.mul TIME_STEP) }

theorem Vec3.add_eq (a b : Vec3) : a.add b = a + b := rfl

theorem Vec3.magnitude_nonneg (v : Vec3) : 0 ≤ v.magnitude := Real.sqrt_nonneg _

/-- If a vector's magnitude is zero, the vector is zero. -/
theorem Vec3.eq_zero_of_magnitude_eq_zero {v : Vec3} (h : v.magnitude = 0) :
    v = Vec3.zero := by
  have hle : v.x ^ 2 + v.y ^ 2 + v.z ^ 2 ≤ 0 := Real.sqrt_eq_zero'.mp h
  have hx : v.x = 0 := by nlinarith [sq_nonneg v.x, sq_nonneg v.y, sq_nonneg v.z]
  have hy : v.y = 0 := by nlinarith [sq_nonneg v.x, sq_nonneg v.y, sq_nonneg v.z]
  have hz : v.z = 0 := by nlinarith [sq_nonneg v.x, sq_nonneg v.y, sq_nonneg v.z]
  ext <;> simp [Vec3.zero, hx, hy, hz]

/-- The source loop body equals the claim's formula: the zero-distance
skip coincides with the formula's value at `r = 0` (the zero vector), and
away from it `dist·distSq = |r|³`. -/
theorem accelContribution_eq_refAccel (p : Vec3) (g : Galaxy α) :
    accelContribution p g = refAccel p g := by
  unfold accelContribution refAccel
  by_cases h : (g.pos.sub p).magnitude ^ 2 = 0
  · rw [if_pos h]
    have hm : (g.pos.sub p).magnitude = 0 :=
      (pow_eq_zero_iff (by norm_num : (2 : ℕ) ≠ 0)).mp h
    have hv : g.pos.sub p = Vec3.zero := Vec3.eq_zero_of_magnitude_eq_zero hm
    rw [hv]
    ext <;> simp [Vec3.zero, Vec3.mul]
  · rw [if_neg h]
    have hm : 0 ≤ (g.pos.sub p).magnitude := Vec3.magnitude_nonneg _
    rw [Real.sqrt_sq hm]
    ring_nf

/-- `accelContribution` reads only the position and mass of the attracting
galaxy. -/
theorem accelContribution_congr (p : Vec3) (g : Galaxy α) (g' : Galaxy β)
    (hpos : g.pos = g'.pos) (hmass : g.mass = g'.mass) :
    accelContribution p g = accelContribution p g' := by
  unfold accelContribution
  rw [hpos, hmass]

theorem foldl_add_accel_eq_sum {γ : Type} (f : γ → Vec3) (l : List γ) (acc : Vec3) :
    l.foldl (fun a b => a.add (f b)) acc = acc + (l.map f).sum := by
  induction l generalizing acc with
  | nil => simp
  | cons b t ih =>
    rw [List.foldl_cons, ih, Vec3.add_eq, List.map_cons, List.sum_cons, add_assoc]

theorem starTotalAcceleration_eq_sum (galaxies : List (Galaxy α)) (s : Star α) :
    starTotalAcceleration galaxies s = (galaxies.map (refAccel s.pos)).sum := by
  unfold starTotalAcceleration
  rw [foldl_add_accel_eq_sum]
  simp only [Vec3.zero_def.symm, zero_add]
  exact congrArg _ (List.map_congr_left fun g _ => accelContribution_eq_refAccel s.pos g)

theorem updateStar_eq_refStarStep (galaxies : List (Galaxy α)) (s : Star α) :
    updateStar galaxies s = refStarStep galaxies s := by
  unfold updateStar refStarStep
  rw [starTotalAcceleration_eq_sum]

theorem galaxyTotalAccelerationGo_eq_refOthersAccel (g : Galaxy α) (selfIdx j : ℕ)
    (l : List (Galaxy α)) (acc : Vec3) :
    galaxyTotalAccelerationGo g selfIdx j l acc = acc + refOthersAccel g.pos selfIdx j l := by
  induction l generalizing j acc with
  | nil => simp [galaxyTotalAccelerationGo, refOthersAccel]
  | cons b t ih =>
    unfold galaxyTotalAccelerationGo refOthersAccel
    by_cases hj : j = selfIdx
    · rw [if_pos hj, if_pos hj, ih, zero_add]
    · rw [if_neg hj, if_neg hj, ih, Vec3.add_eq, accelContribution_eq_refAccel, add_assoc]

/-- Mapping a stars-only update over the galaxy list does not change the
phase 2 acceleration sums (they read only positions and masses). -/
theorem galaxyTotalAccelerationGo_map (g : Galaxy α) (selfIdx j : ℕ)
    (l : List (Galaxy α)) (acc : Vec3) (f : Galaxy α → Galaxy α)
    (hpos : ∀ x, (f x).pos = x.pos) (hmass : ∀ x, (f x).mass = x.mass) :
    galaxyTotalAccelerationGo g selfIdx j (l.map f) acc =
      galaxyTotalAccelerationGo g selfIdx j l acc := by
  induction l generalizing j acc with
  | nil => simp
  | cons b t ih =>
    unfold galaxyTotalAccelerationGo
    rw [List.map_cons]
    show galaxyTotalAccelerationGo g selfIdx (j + 1) (t.map f) _ = _
    rw [accelContribution_congr g.pos (f b) b (hpos b) (hmass b), ih]

theorem updateGalaxyVelocities_eq_refPhase2 (galaxies : List (Galaxy α))
    (f : Galaxy α → Galaxy α)
    (hpos : ∀ x, (f x).pos = x.pos) (hmass : ∀ x, (f x).mass = x.mass)
    (l : List (Galaxy α)) (i : ℕ) :
    updateGalaxyVelocities (galaxies.map f) i l = refPhase2 galaxies i l := by
  induction l generalizing i with
  | nil => rfl
  | cons b t ih =>
    unfold updateGalaxyVelocities refPhase2
    rw [ih]
    unfold galaxyVelKick galaxyTotalAcceleration
    rw [galaxyTotalAccelerationGo_map b i 0 galaxies Vec3.zero f hpos hmass,
      galaxyTotalAccelerationGo_eq_refOthersAccel, ← Vec3.zero_def, zero_add]

/-- C1: `updateGalaxies` equals the claim's three-phase reference
definition — star phase summing `G·M/|r|³·r` over ALL galaxies at
start-of-call positions with velocity-first updates, galaxy velocity phase
summing over every OTHER galaxy at start-of-call positions, and a final
galaxy position phase using the updated velocities. -/
theorem updateGalaxies_eq_three_phase_reference (galaxies : List (Galaxy α)) :
    updateGalaxies galaxies = updateGalaxiesRef galaxies := by
  have hstar : (fun galaxy : Galaxy α =>
      { galaxy with stars := galaxy.stars.map (updateStar galaxies) }) =
      fun g => { g with stars := g.stars.map (refStarStep galaxies) } := by
    funext g
    rw [List.map_congr_left fun s _ => updateStar_eq_refStarStep galaxies s]
  simp only [updateGalaxies, updateGalaxiesRef, hstar]
  rw [updateGalaxyVelocities_eq_refPhase2 galaxies
      (fun g => { g with stars := g.stars.map (refStarStep galaxies) })
      (fun _ => rfl) (fun _ => rfl)]

/-! ### Concrete two-body scenario (C2) -/

/-- Galaxy of mass 100 at `(-1,0,0)`, zero velocity, no stars. -/
def twoBodyA : Galaxy Unit :=
  { vel := Vec3.zero, pos := ⟨-1, 0, 0⟩, rotation := Vec3.zero, mass := 100,
    stars := [], data := () }

/-- Galaxy of mass 100 at `(1,0,0)`, zero velocity, no stars. -/
def twoBodyB : Galaxy Unit :=
  { vel := Vec3.zero, pos := ⟨1, 0, 0⟩, rotation := Vec3.zero, mass := 100,
    stars := [], data := () }

theorem sqrt_four : Real.sqrt 4 = 2 := by
  rw [show (4 : ℝ) = 2 ^ 2 by norm_num, Real.sqrt_sq (by norm_num : (0 : ℝ) ≤ 2)]

/-- C2: one `updateGalaxies` step on the two mass-100 galaxies at `(±1,0,0)`
gives each a velocity of magnitude `G·100/2²·Δt = 0.000125` toward the
other along the x-axis, and displaces each position by
`0.000125·0.005 = 6.25e-7` toward the other (the position update uses the
new velocity). -/
theorem two_body_scenario :
    (updateGalaxies [twoBodyA, twoBodyB]).map (fun g => (g.vel, g.pos)) =
        [((⟨0.000125, 0, 0⟩ : Vec3), (⟨-1 + 6.25e-7, 0, 0⟩ : Vec3)),
         ((⟨-0.000125, 0, 0⟩ : Vec3), (⟨1 - 6.25e-7, 0, 0⟩ : Vec3))] ∧
      (0.000125 : ℝ) = G * 100 / 2 ^ 2 * TIME_STEP ∧
      (6.25e-7 : ℝ) = 0.000125 * TIME_STEP := by
  refine ⟨?_, by norm_num [G, TIME_STEP], by norm_num [TIME_STEP]⟩
  norm_num [updateGalaxies, updateGalaxyVelocities, galaxyVelKick,
    galaxyTotalAcceleration, galaxyTotalAccelerationGo, accelContribution,
    twoBodyA, twoBodyB, Vec3.sub, Vec3.add, Vec3.mul, Vec3.zero,
    Vec3.magnitude, sqrt_four, G, TIME_STEP]

/-! ### Zero-distance skip (C8) -/

/-- A galaxy exactly at the probed position contributes the zero vector
(the `distSq === 0` branch). -/
theorem accelContribution_eq_zero_of_pos_eq (p : Vec3) (g : Galaxy α) (h : g.pos = p) :
    accelContribution p g = Vec3.zero := by
  unfold accelContribution
  rw [h]
  simp [Vec3.sub, Vec3.magnitude]

/-- Splitting a mapped sum at index `i`. -/
theorem sum_map_eraseIdx {γ M : Type} [AddCommMonoid M] (f : γ → M) (l : List γ)
    (i : ℕ) (hi : i < l.length) :
    (l.map f).sum = f (l.get ⟨i, hi⟩) + ((l.eraseIdx i).map f).sum := by
  induction l generalizing i with
  | nil => simp at hi
  | cons b t ih =>
    cases i with
    | zero => simp [List.eraseIdx]
    | succ m =>
      have hm : m < t.length := by simpa using hi
      simp only [List.map_cons, List.sum_cons, List.eraseIdx, List.get]
      rw [ih m hm]
      rw [← add_assoc, add_comm (f b) (f (t.get ⟨m, hm⟩)), add_assoc]

theorem starTotalAcceleration_eraseIdx (galaxies : List (Galaxy α)) (star : Star α)
    (i : ℕ) (hi : i < galaxies.length)
    (hpos : (galaxies.get ⟨i, hi⟩).pos = star.pos) :
    starTotalAcceleration galaxies star = starTotalAcceleration (galaxies.eraseIdx i) star := by
  unfold starTotalAcceleration
  rw [foldl_add_accel_eq_sum, foldl_add_accel_eq_sum,
    sum_map_eraseIdx (accelContribution star.pos) galaxies i hi,
    accelContribution_eq_zero_of_pos_eq star.pos _ hpos, ← Vec3.zero_def, zero_add]

/-- C8: a star exactly coincident with galaxy `i`'s start-of-call position
gets a zero contribution from that galaxy, its whole update equals the
update computed from the remaining galaxies alone, and the same
zero-distance skip yields a zero contribution for a coincident pair of
galaxies in the galaxy-velocity phase. -/
theorem zero_distance_skip (galaxies : List (Galaxy α)) (star : Star α) (i : ℕ)
    (hi : i < galaxies.length) (hpos : (galaxies.get ⟨i, hi⟩).pos = star.pos) :
    accelContribution star.pos (galaxies.get ⟨i, hi⟩) = Vec3.zero ∧
      updateStar galaxies star = updateStar (galaxies.eraseIdx i) star ∧
      ∀ (j : ℕ) (hj : j < galaxies.length), j ≠ i →
        (galaxies.get ⟨j, hj⟩).pos = (galaxies.get ⟨i, hi⟩).pos →
        accelContribution (galaxies.get ⟨i, hi⟩).pos (galaxies.get ⟨j, hj⟩) = Vec3.zero := by
  refine ⟨accelContribution_eq_zero_of_pos_eq _ _ hpos, ?_, ?_⟩
  · unfold updateStar
    rw [starTotalAcceleration_eraseIdx galaxies star i hi hpos]
  · intro j hj _ hjpos
    exact accelContribution_eq_zero_of_pos_eq _ _ hjpos

/-- Concrete instance for the C8 witness: two coincident galaxies at the
origin and a star at the origin. -/
def witGalaxies : List (Galaxy Unit) :=
  [{ vel := Vec3.zero, pos := ⟨0, 0, 0⟩, rotation := Vec3.zero, mass := 5,
     stars := [], data := () },
   { vel := Vec3.zero, pos := ⟨0, 0, 0⟩, rotation := Vec3.zero, mass := 7,
     stars := [], data := () }]

/-- Star at the origin for the C8 witness. -/
def witStar : Star Unit := { pos := ⟨0, 0, 0⟩, vel := ⟨0, 0, 0⟩, mass := 0, data := () }

theorem witGalaxies_len : 0 < witGalaxies.length := by simp [witGalaxies]

/-- Witness for C8 at the concrete coincident configuration. -/
theorem zero_distance_skip_witness :
    accelContribution witStar.pos (witGalaxies.get ⟨0, witGalaxies_len⟩) = Vec3.zero ∧
      updateStar witGalaxies witStar = updateStar (witGalaxies.eraseIdx 0) witStar ∧
      ∀ (j : ℕ) (hj : j < witGalaxies.length), j ≠ 0 →
        (witGalaxies.get ⟨j, hj⟩).pos = (witGalaxies.get ⟨0, witGalaxies_len⟩).pos →
        accelContribution (witGalaxies.get ⟨0, witGalaxies_len⟩).pos
          (witGalaxies.get ⟨j, hj⟩) = Vec3.zero :=
  zero_distance_skip witGalaxies witStar 0 witGalaxies_len rfl

/-! ### No star-star coupling (C7) -/

/-- The star owned by galaxy `gi` at index `si`, if any. -/
def starAt (galaxies : List (Galaxy α)) (gi si : ℕ) : Option (Star α) :=
  (galaxies.get? gi).bind fun g => g.stars.get? si

theorem updateGalaxyVelocities_get? (gs : List (Galaxy α)) (i : ℕ)
    (l : List (Galaxy α)) (n : ℕ) :
    (updateGalaxyVelocities gs i l).get? n =
      (l.get? n).map fun g => galaxyVelKick gs (i + n) g := by
  induction l generalizing i n with
  | nil => simp [updateGalaxyVelocities]
  | cons b t ih =>
    cases n with
    | zero => simp [updateGalaxyVelocities]
    | succ m =>
      simp only [updateGalaxyVelocities, List.get?_cons_succ, ih, Nat.add_succ,
        Nat.succ_add]

/-- Navigation: after `updateGalaxies`, the star at `(gi, si)` is exactly
the phase 1 update of the original star at `(gi, si)` (phases 2 and 3 do
not touch the stars). -/
theorem updateGalaxies_starAt (gs : List (Galaxy α)) (gi si : ℕ) :
    starAt (updateGalaxies gs) gi si = (starAt gs gi si).map (updateStar gs) := by
  unfold starAt updateGalaxies
  simp only [List.get?_map, updateGalaxyVelocities_get?, Option.map_map]
  cases h : gs.get? gi with
  | none => simp [h]
  | some g => simp [h, galaxyVelKick, List.get?_map]

theorem refAccel_congr (p : Vec3) (g : Galaxy α) (g' : Galaxy β)
    (hpos : g.pos = g'.pos) (hmass : g.mass = g'.mass) :
    refAccel p g = refAccel p g' := by
  unfold refAccel
  rw [hpos, hmass]

theorem starTotalAcceleration_congr (gs1 : List (Galaxy α)) (gs2 : List (Galaxy β))
    (hgal : List.Forall₂
      (fun g g' => g.mass = g'.mass ∧ g.pos = g'.pos ∧ g.vel = g'.vel) gs1 gs2)
    (s1 : Star α) (s2 : Star β) (hp : s1.pos = s2.pos) :
    starTotalAcceleration gs1 s1 = starTotalAcceleration gs2 s2 := by
  rw [starTotalAcceleration_eq_sum, starTotalAcceleration_eq_sum, hp]
  induction hgal with
  | nil => rfl
  | cons hg _ ih =>
    simp only [List.map_cons, List.sum_cons, ih,
      refAccel_congr s2.pos _ _ hg.2.1 hg.1]

/-- C7: two-run noninterference.  If two inputs agree on every galaxy's
mass, position and velocity, and on the position, velocity and mass of the
distinguished star at `(gi, si)` (other stars arbitrary), then after one
`updateGalaxies` step the distinguished star has the same position and
velocity in both runs. -/
theorem star_noninterference (gs1 : List (Galaxy α)) (gs2 : List (Galaxy β))
    (hgal : List.Forall₂
      (fun g g' => g.mass = g'.mass ∧ g.pos = g'.pos ∧ g.vel = g'.vel) gs1 gs2)
    (gi si : ℕ)
    (hstar : (starAt gs1 gi si).map (fun s => (s.pos, s.vel, s.mass)) =
      (starAt gs2 gi si).map fun s => (s.pos, s.vel, s.mass)) :
    (starAt (updateGalaxies gs1) gi si).map (fun s => (s.pos, s.vel)) =
      (starAt (updateGalaxies gs2) gi si).map fun s => (s.pos, s.vel) := by
  rw [updateGalaxies_starAt, updateGalaxies_starAt]
  cases h1 : starAt gs1 gi si with
  | none =>
    cases h2 : starAt gs2 gi si with
    | none => simp
    | some s2 => rw [h1, h2] at hstar; simp at hstar
  | some s1 =>
    cases h2 : starAt gs2 gi si with
    | none => rw [h1, h2] at hstar; simp at hstar
    | some s2 =>
      rw [h1, h2] at hstar
      simp only [Option.map_some', Option.some.injEq, Prod.mk.injEq] at hstar
      obtain ⟨hp, hv, _⟩ := hstar
      have hacc : starTotalAcceleration gs1 s1 = starTotalAcceleration gs2 s2 :=
        starTotalAcceleration_congr gs1 gs2 hgal s1 s2 hp
      simp only [Option.map_some', Option.some.injEq, Prod.mk.injEq]
      unfold updateStar
      simp [hacc, hp, hv]

/-- Concrete inputs for the C7 witness: one galaxy owning a distinguished
star (index 0) and a second star that differs between the two runs. -/
def witNIsD : Star Unit := { pos := ⟨1, 2, 3⟩, vel := ⟨4, 5, 6⟩, mass := 0, data := () }

/-- The "other" star of the first run. -/
def witNIsX1 : Star Unit := { pos := ⟨7, 8, 9⟩, vel := ⟨0, 0, 0⟩, mass := 0, data := () }

/-- The "other" star of the second run: different position and mass. -/
def witNIsX2 : Star Unit := { pos := ⟨-7, 0, 1⟩, vel := ⟨2, 0, 0⟩, mass := 11, data := () }

/-- First run's galaxy list. -/
def witNIgs1 : List (Galaxy Unit) :=
  [{ vel := Vec3.zero, pos := ⟨0, 0, 0⟩, rotation := Vec3.zero, mass := 5,
     stars := [witNIsD, witNIsX1], data := () }]

/-- Second run's galaxy list: same galaxy data, different other star. -/
def witNIgs2 : List (Galaxy Unit) :=
  [{ vel := Vec3.zero, pos := ⟨0, 0, 0⟩, rotation := Vec3.zero, mass := 5,
     stars := [witNIsD, witNIsX2], data := () }]

/-- Witness for C7 at the concrete pair of runs. -/
theorem star_noninterference_witness :
    (starAt (updateGalaxies witNIgs1) 0 0).map (fun s => (s.pos, s.vel)) =
      (starAt (updateGalaxies witNIgs2) 0 0).map fun s => (s.pos, s.vel) :=
  star_noninterference witNIgs1 witNIgs2
    (List.Forall₂.cons ⟨rfl, rfl, rfl⟩ List.Forall₂.nil) 0 0 rfl

/-! ### Frame property (C10) -/

/-- The fields `updateGalaxies` must leave unchanged: each galaxy's mass,
rotation and data map, the length of its stars list, and each star's mass
and data map (in order). -/
def galaxyFrame (g : Galaxy α) : ℝ × Vec3 × α × ℕ × List (ℝ × α) :=
  (g.mass, g.rotation, g.data, g.stars.length, g.stars.map fun s => (s.mass, s.data))

theorem updateGalaxyVelocities_map_frame (gs : List (Galaxy α)) (i : ℕ)
    (l : List (Galaxy α)) :
    (updateGalaxyVelocities gs i l).map galaxyFrame = l.map galaxyFrame := by
  induction l generalizing i with
  | nil => rfl
  | cons b t ih =>
    simp only [updateGalaxyVelocities, List.map_cons, ih]
    rfl

/-- C10: `updateGalaxies` mutates only positions and velocities — the
galaxy list keeps its length and order, and every galaxy's mass, rotation,
data map and stars list shape (and every star's mass and data map) are
unchanged. -/
theorem updateGalaxies_frame (galaxies : List (Galaxy α)) :
    (updateGalaxies galaxies).length = galaxies.length ∧
      (updateGalaxies galaxies).map galaxyFrame = galaxies.map galaxyFrame := by
  have hmap : (updateGalaxies galaxies).map galaxyFrame = galaxies.map galaxyFrame := by
    unfold updateGalaxies
    simp only [List.map_map, updateGalaxyVelocities_map_frame]
    rw [show (galaxyFrame ∘ fun galaxy : Galaxy α =>
        { galaxy with pos := galaxy.pos.add (galaxy.vel.mul TIME_STEP) }) =
        galaxyFrame from rfl]
    rw [updateGalaxyVelocities_map_frame, List.map_map]
    refine List.map_congr_left fun g _ => ?_
    simp only [Function.comp_apply, galaxyFrame, List.length_map, List.map_map]
    rfl
  refine ⟨?_, hmap⟩
  have := congrArg List.length hmap
  simpa using this

/-! ### Initial-condition generator (`createRandomGalaxy`) -/

/-- `GalaxyOptions` from `src/physics/simple.ts`: every field optional. -/
structure GalaxyOptions where
  minStarCount : Option ℝ := none
  maxStarCount : Option ℝ := none
  minGalaxyRadius : Option ℝ := none
  maxGalaxyRadius : Option ℝ := none
  maxInitialSpeed : Option ℝ := none
  rewindTimeSteps : Option ℝ := none
  initialCollisionAvoidanceOffset : Option ℝ := none

/-- JS truthiness of an optional numeric option as the source tests it
(`maxStarCount ? … : …`): `undefined` and `0` are falsy (`NaN` has no
counterpart in `ℝ`). -/
noncomputable def optTruthy (o : Option ℝ) : Bool :=
  match o with
  | none => false
  | some v => if v = 0 then false else true

/-- `targetNumberOfStars`:
`maxStarCount ? Math.random() * (maxStarCount - minStarCount) + minStarCount : minStarCount`.
The draw, taken only in the truthy branch, is `rnd 9` — nine draws are
consumed before it (three each for the initial velocity, the position
offset and the rotation). -/
noncomputable def targetNumberOfStars (options : GalaxyOptions) (rnd : ℕ → ℝ) : ℝ :=
  let minStarCount := options.minStarCount.getD 1500
  match options.maxStarCount with
  | some maxStarCount =>
    if maxStarCount = 0 then minStarCount
    else rnd 9 * (maxStarCount - minStarCount) + minStarCount
  | none => minStarCount

/-- Index of the draw used for `galaxyRadius` (one later when the
star-count branch consumed `rnd 9`). -/
noncomputable def radiusDrawIndex (options : GalaxyOptions) : ℕ :=
  if optTruthy options.maxStarCount then 10 else 9

/-- `galaxyRadius`:
`maxGalaxyRadius ? Math.random() * (maxGalaxyRadius - minGalaxyRadius) + minGalaxyRadius : minGalaxyRadius`. -/
noncomputable def galaxyRadiusOf (options : GalaxyOptions) (rnd : ℕ → ℝ) : ℝ :=
  let minGalaxyRadius := options.minGalaxyRadius.getD 1
  match options.maxGalaxyRadius with
  | some maxGalaxyRadius =>
    if maxGalaxyRadius = 0 then minGalaxyRadius
    else rnd (radiusDrawIndex options) * (maxGalaxyRadius - minGalaxyRadius) + minGalaxyRadius
  | none => minGalaxyRadius

/-- Index of the first per-star draw. -/
noncomputable def starDrawBase (options : GalaxyOptions) : ℕ :=
  if optTruthy options.maxGalaxyRadius then radiusDrawIndex options + 1
  else radiusDrawIndex options

/-- `createRandomStarInGalaxy(galaxy, rotationMatrix, galaxyRadius)`: the
four `Math.random()` draws it makes, in source order, are `rnd 0`
(angular position), `rnd 1` (distance from center), `rnd 2` (height
uniform) and `rnd 3` (sign flip). -/
noncomputable def createRandomStarInGalaxy (galaxy : Galaxy Unit)
    (rotationMatrix : Matrix3x3) (galaxyRadius : ℝ) (rnd : ℕ → ℝ) : Star Unit :=
  let angularPosition := 2 * Real.pi * rnd 0
  let distanceFromCenter := rnd 1 * galaxyRadius
  let heightFromPlane' :=
    rnd 2 * Real.exp (-2 * (distanceFromCenter / galaxyRadius)) / 5 * galaxyRadius
  let heightFromPlane := if rnd 3 < 0.5 then -heightFromPlane' else heightFromPlane'
  let distanceToCenter3D := Real.sqrt (distanceFromCenter ^ 2 + heightFromPlane ^ 2)
  let orbitalSpeed := Real.sqrt (galaxy.mass * G / distanceToCenter3D)
  let sinW := Real.sin angularPosition
  let cosW := Real.cos angularPosition
  let localPosition : Vec3 :=
    ⟨distanceFromCenter * cosW, distanceFromCenter * sinW, heightFromPlane⟩
  let localVelocity : Vec3 := ⟨-orbitalSpeed * sinW, orbitalSpeed * cosW, 0⟩
  let worldPosition := (rotationMatrix.transform localPosition).add galaxy.pos
  let worldVelocity := (rotationMatrix.transform localVelocity).add galaxy.vel
  { pos := worldPosition, vel := worldVelocity, mass := 0, data := () }

/-- `createRandomGalaxy(options)`.  Draws `rnd 0..2` form the initial
velocity, `rnd 3..5` the collision-avoidance offset, `rnd 6..8` the
rotation; the star-count draw and the radius draw follow only when the
corresponding max option is truthy; star `i` then consumes draws
`rnd (starDrawBase options + 4*i + j)`, `j < 4`.  The JS loop
`for (let i = 0; i < targetNumberOfStars; i++)` over a possibly fractional
real bound executes `⌈targetNumberOfStars⌉₊` times (`Nat.ceil`; 0 for a
non-positive bound), since it runs while the integer `i` is strictly below
the bound. -/
noncomputable def createRandomGalaxy (options : GalaxyOptions) (rnd : ℕ → ℝ) : Galaxy Unit :=
  let maxInitialSpeed := options.maxInitialSpeed.getD 4
  let rewindTimeSteps := options.rewindTimeSteps.getD 3
  let initialCollisionAvoidanceOffset := options.initialCollisionAvoidanceOffset.getD 1.5
  let initialVelocity := Vec3.randomCentered (rnd 0) (rnd 1) (rnd 2) maxInitialSpeed
  let rewindVector := initialVelocity.mul (-rewindTimeSteps)
  let initialPosition := rewindVector.add
    (Vec3.randomCentered (rnd 3) (rnd 4) (rnd 5) initialCollisionAvoidanceOffset)
  let rotation := Vec3.random (rnd 6) (rnd 7) (rnd 8) Real.pi
  let galaxy : Galaxy Unit :=
    { vel := initialVelocity, pos := initialPosition, rotation := rotation,
      mass := targetNumberOfStars options rnd, stars := [], data := () }
  let rotationMatrix := Matrix3x3.fromEuler rotation.x rotation.y rotation.z
  let stars := (List.range ⌈targetNumberOfStars options rnd⌉₊).map fun i =>
    createRandomStarInGalaxy galaxy rotationMatrix (galaxyRadiusOf options rnd)
      fun j => rnd (starDrawBase options + 4 * i + j)
  { galaxy with stars := stars }

/-- Options `{minStarCount: 1, maxStarCount: 2}` for the C3 counterexample. -/
def ceOptions : GalaxyOptions := { minStarCount := some 1, maxStarCount := some 2 }

/-- A random stream returning `1/2` on every draw. -/
noncomputable def ceRnd : ℕ → ℝ := fun _ => 1 / 2

/-- Counterexample to C3 as stated: with `minStarCount = 1`,
`maxStarCount = 2` and every draw equal to `1/2`, the sampled target is
`t = 1.5`, the galaxy gets 2 stars, but `⌊t⌋ = 1` — the count is the
ceiling of `t`, not its floor. -/
theorem star_count_not_floor :
    targetNumberOfStars ceOptions ceRnd = 1.5 ∧
      (createRandomGalaxy ceOptions ceRnd).stars.length = 2 ∧
      Nat.floor (1.5 : ℝ) = 1 := by
  have ht : targetNumberOfStars ceOptions ceRnd = 1.5 := by
    norm_num [targetNumberOfStars, ceOptions, ceRnd]
  have hceil : ⌈(1.5 : ℝ)⌉₊ = 2 := by
    rw [Nat.ceil_eq_iff (by norm_num : (2 : ℕ) ≠ 0)]
    norm_num
  refine ⟨ht, ?_, ?_⟩
  · simp [createRandomGalaxy, ht, hceil]
  · rw [Nat.floor_eq_iff (by norm_num : (0 : ℝ) ≤ 1.5)]
    norm_num

/-- C3 amended: the star count is the CEILING of the (possibly fractional)
uniform target `t` (0 if `t ≤ 0`), not its floor; when `maxStarCount` is
absent the target is exactly `minStarCount`; and with
`minStarCount = maxStarCount = N` for an integer `N > 0` the galaxy has
exactly `N` stars. -/
theorem createRandomGalaxy_star_count (options : GalaxyOptions) (rnd : ℕ → ℝ) :
    (createRandomGalaxy options rnd).stars.length =
        ⌈targetNumberOfStars options rnd⌉₊ ∧
      (options.maxStarCount = none →
        targetNumberOfStars options rnd = options.minStarCount.getD 1500) ∧
      ∀ N : ℕ, 0 < N → options.minStarCount = some (N : ℝ) →
        options.maxStarCount = some (N : ℝ) →
        (createRandomGalaxy options rnd).stars.length = N := by
  have hlen : (createRandomGalaxy options rnd).stars.length =
      ⌈targetNumberOfStars options rnd⌉₊ := by
    simp [createRandomGalaxy]
  refine ⟨hlen, ?_, ?_⟩
  · intro h
    simp [targetNumberOfStars, h]
  · intro N hN hmin hmax
    have ht : targetNumberOfStars options rnd = (N : ℝ) := by
      simp only [targetNumberOfStars, hmin, hmax, Option.getD_some]
      rw [if_neg (Nat.cast_ne_zero.mpr hN.ne')]
      ring
    rw [hlen, ht, Nat.ceil_natCast]

/-- Options `{minStarCount: 3, maxStarCount: 3}` for the C3 witness. -/
def wOptions : GalaxyOptions := { minStarCount := some 3, maxStarCount := some 3 }

/-- Witness for the amended C3 at `N = 3`. -/
theorem createRandomGalaxy_star_count_witness :
    (createRandomGalaxy wOptions ceRnd).stars.length = 3 :=
  (createRandomGalaxy_star_count wOptions ceRnd).2.2 3 (by norm_num)
    (by simp [wOptions]) (by simp [wOptions])

/-- C9: a literal `0` for `maxStarCount` or `maxGalaxyRadius` is falsy and
behaves exactly as an absent option: the produced galaxy is identical to
the one produced with the option removed, `{minStarCount: m, maxStarCount: 0}`
yields exactly `m` stars and mass `m`, and `maxGalaxyRadius: 0` makes the
disk radius exactly `minGalaxyRadius`. -/
theorem zero_max_options_behave_as_absent (options : GalaxyOptions) (rnd : ℕ → ℝ) :
    (options.maxStarCount = some 0 →
        createRandomGalaxy options rnd =
          createRandomGalaxy { options with maxStarCount := none } rnd) ∧
      (options.maxGalaxyRadius = some 0 →
        createRandomGalaxy options rnd =
          createRandomGalaxy { options with maxGalaxyRadius := none } rnd) ∧
      (∀ m : ℕ, options.minStarCount = some (m : ℝ) → options.maxStarCount = some 0 →
        (createRandomGalaxy options rnd).stars.length = m ∧
          (createRandomGalaxy options rnd).mass = (m : ℝ)) ∧
      (options.maxGalaxyRadius = some 0 →
        galaxyRadiusOf options rnd = options.minGalaxyRadius.getD 1) := by
  refine ⟨?_, ?_, ?_, ?_⟩
  · intro h
    have htarget : targetNumberOfStars options rnd =
        targetNumberOfStars { options with maxStarCount := none } rnd := by
      simp [targetNumberOfStars, h]
    have hradidx : radiusDrawIndex options =
        radiusDrawIndex { options with maxStarCount := none } := by
      simp [radiusDrawIndex, optTruthy, h]
    have hgalrad : galaxyRadiusOf options rnd =
        galaxyRadiusOf { options with maxStarCount := none } rnd := by
      simp only [galaxyRadiusOf, hradidx]
    have hbase : starDrawBase options = starDrawBase { options with maxStarCount := none } := by
      simp only [starDrawBase, hradidx]
    simp only [createRandomGalaxy, htarget, hgalrad, hbase]
  · intro h
    have hgalrad : galaxyRadiusOf options rnd =
        galaxyRadiusOf { options with maxGalaxyRadius := none } rnd := by
      simp [galaxyRadiusOf, h]
    have hbase : starDrawBase options =
        starDrawBase { options with maxGalaxyRadius := none } := by
      simp [starDrawBase, optTruthy, h, radiusDrawIndex]
    have htarget : targetNumberOfStars options rnd =
        targetNumberOfStars { options with maxGalaxyRadius := none } rnd := by
      simp [targetNumberOfStars]
    simp only [createRandomGalaxy, htarget, hgalrad, hbase]
  · intro m hmin hmax
    have ht : targetNumberOfStars options rnd = (m : ℝ) := by
      simp [targetNumberOfStars, hmin, hmax]
    constructor
    · simp [createRandomGalaxy, ht, Nat.ceil_natCast]
    · simp [createRandomGalaxy, ht]
  · intro h
    simp [galaxyRadiusOf, h]

/-- Concrete options for the C9 witness. -/
def w9Options : GalaxyOptions :=
  { minStarCount := some 2, maxStarCount := some 0,
    minGalaxyRadius := some 7, maxGalaxyRadius := some 0 }

/-- Witness for C9 at `{minStarCount: 2, maxStarCount: 0, minGalaxyRadius: 7, maxGalaxyRadius: 0}`. -/
theorem zero_max_options_witness :
    createRandomGalaxy w9Options ceRnd =
        createRandomGalaxy { w9Options with maxStarCount := none } ceRnd ∧
      (createRandomGalaxy w9Options ceRnd).stars.length = 2 ∧
      (createRandomGalaxy w9Options ceRnd).mass = ((2 : ℕ) : ℝ) ∧
      galaxyRadiusOf w9Options ceRnd = 7 :=
  ⟨(zero_max_options_behave_as_absent w9Options ceRnd).1 rfl,
   ((zero_max_options_behave_as_absent w9Options ceRnd).2.2.1 2
      (by simp [w9Options]) rfl).1,
   ((zero_max_options_behave_as_absent w9Options ceRnd).2.2.1 2
      (by simp [w9Options]) rfl).2,
   by
    have h := (zero_max_options_behave_as_absent w9Options ceRnd).2.2.2 rfl
    simpa [w9Options] using h⟩

end GalaxyJS
